import Mathlib

/-!
Verification of the chart-data derivation in
`src/components/Dashboard/ActivityGraph.tsx` (and the older variant of the
same component kept in the repository), the "points activity" graph of the
Propel-2-Excel dashboard frontend.

The development shallowly embeds the data model (`ActivityFeedItem`,
`TimelineRow`, the derived daily buckets and `ChartPoint`s), the date
formatter, the two series-building branches (activity feed and timeline),
and the final reconciliation adjustment, and proves the spec's testable
properties about them.

JavaScript `number`s that the component manipulates are integers here
(`Int`): every arithmetic operation performed by the component on points
values is integer-valued on the integer inputs the backend supplies.
-/

namespace ActivityGraph

/-! ### Calendar arithmetic: a model of the JavaScript `Date` object

`new Date(...).getTime()` and `toLocaleDateString` are modelled through
civil-calendar/epoch-day conversions (the standard Gregorian algorithms).
A runtime timezone is modelled as a fixed offset `tz` in minutes east of
UTC (daylight-saving transitions are not modelled; the spec's timezone
claims are about fixed offsets). -/

/-- Number of days from the civil epoch 1970-01-01 to the given
Gregorian date `y-m-d`; linear continuation in `d` outside the month's
range, matching JavaScript `Date` field rollover. -/
def daysFromCivil (y m d : Int) : Int :=
  let y2 := if m ≤ 2 then y - 1 else y
  let era := Int.fdiv y2 400
  let yoe := y2 - era * 400
  let mp := Int.fmod (m + 9) 12
  let doy := Int.fdiv (153 * mp + 2) 5 + d - 1
  let doe := yoe * 365 + Int.fdiv yoe 4 - Int.fdiv yoe 100 + doy
  era * 146097 + doe - 719468

/-- Inverse of `daysFromCivil`: civil Gregorian date `(y, m, d)` of the
given epoch-day number. -/
def civilFromDays (z0 : Int) : Int × Int × Int :=
  let z := z0 + 719468
  let era := Int.fdiv z 146097
  let doe := z - era * 146097
  let yoe := Int.fdiv (doe - Int.fdiv doe 1460 + Int.fdiv doe 36524 - Int.fdiv doe 146096) 365
  let y := yoe + era * 400
  let doy := doe - (365 * yoe + Int.fdiv yoe 4 - Int.fdiv yoe 100)
  let mp := Int.fdiv (5 * doy + 2) 153
  let d := doy - Int.fdiv (153 * mp + 2) 5 + 1
  let m := if mp < 10 then mp + 3 else mp - 9
  (if m ≤ 2 then y + 1 else y, m, d)

/-- Short month names produced by
`toLocaleDateString('en-US', { month: 'short' })`. -/
def monthShort (m : Int) : String :=
  ["Jan", "Feb", "Mar", "Apr", "May", "Jun",
   "Jul", "Aug", "Sep", "Oct", "Nov", "Dec"].getD ((m - 1).toNat) ""

/-- Model of splitting a string at every occurrence of a separator
character, as JavaScript `String.prototype.split` does with a one-character
separator; works on the character list of the string. -/
def splitOnChar (c : Char) : List Char → List (List Char)
  | [] => [[]]
  | x :: rest =>
    let r := splitOnChar c rest
    if x = c then [] :: r
    else match r with
      | [] => [[x]]
      | g :: gs => (x :: g) :: gs

/-- Model of JavaScript `parseInt(s, 10)` on the decimal strings the
backend supplies for date components (`"2025"`, `"09"`, ...). Inputs on
which `parseInt` yields `NaN` or ignores a non-digit tail are modelled as
`none`. -/
def digitsToNat (cs : List Char) : Option Nat :=
  cs.foldl (fun acc c =>
    match acc with
    | none => none
    | some n => if c.isDigit then some (n * 10 + (c.toNat - 48)) else none)
    (some 0)

/-- Parse of `dateString.split('-').map(num => parseInt(num, 10))`
destructured as `[year, month, day]`, from `formatDate` in
`ActivityGraph.tsx`. Components that `parseInt` cannot read (`NaN`) are
modelled as `0`. -/
def parseYMD (s : String) : Int × Int × Int :=
  let parts := (splitOnChar '-' s.data).map (fun t => ((digitsToNat t).getD 0 : Int))
  (parts.getD 0 0, parts.getD 1 0, parts.getD 2 0)

/-- Epoch-day value of a `"YYYY-MM-DD"` date string: order-faithful model
of `new Date(dateString).getTime()` (which equals this value times
86400000 for such strings, ISO date-only strings being parsed as UTC
midnight), as used by the sort comparators of `chartData`. -/
def dateVal (s : String) : Int :=
  let p := parseYMD s
  daysFromCivil p.1 p.2.1 p.2.2

/-- Epoch-day value of the local wall-clock date constructed by
`new Date(year, month - 1, day)` (month rollover normalised as the `Date`
constructor does). -/
def jsDateDays (y m d : Int) : Int :=
  let t := y * 12 + (m - 1)
  daysFromCivil (Int.fdiv t 12) (Int.fmod t 12 + 1) 1 + (d - 1)

/-- The `formatDate` of `src/components/Dashboard/ActivityGraph.tsx`:
parses year/month/day manually, constructs `new Date(year, month - 1, day)`
(a local wall-clock midnight, i.e. epoch minutes `wall - tz` in a timezone
at offset `tz` minutes), and renders it with
`toLocaleDateString('en-US', { month: 'short', day: 'numeric' })`, which
formats the local wall-clock components (epoch plus `tz`). -/
def formatDate (tz : Int) (s : String) : String :=
  let p := parseYMD s
  let wall := jsDateDays p.1 p.2.1 p.2.2 * 1440
  let epochMin := wall - tz
  let loc := civilFromDays (Int.fdiv (epochMin + tz) 1440)
  monthShort loc.2.1 ++ " " ++ toString loc.2.2

/-- The `formatDate` of the older component variant (`src/unnamed/part_000`):
`new Date(dateString)` parses a bare `"YYYY-MM-DD"` string as UTC midnight,
which `toLocaleDateString` then renders at the local offset `tz`. -/
def formatDateGeneric (tz : Int) (s : String) : String :=
  let epochMin := dateVal s * 1440
  let loc := civilFromDays (Int.fdiv (epochMin + tz) 1440)
  monthShort loc.2.1 ++ " " ++ toString loc.2.2

example : daysFromCivil 1970 1 1 = 0 := by decide
example : civilFromDays 0 = (1970, 1, 1) := by decide
example : formatDate 0 "2025-09-08" = "Sep 8" := by decide
example : formatDateGeneric (-300) "2025-09-08" = "Sep 7" := by decide

/-- Gregorian leap-year predicate (for stating which `YYYY-MM-DD` strings
denote valid calendar dates). -/
def isLeapYear (y : Int) : Prop :=
  y % 4 = 0 ∧ (y % 100 ≠ 0 ∨ y % 400 = 0)

instance (y : Int) : Decidable (isLeapYear y) :=
  inferInstanceAs (Decidable (_ ∧ _))

/-- Number of days of month `m` of year `y` in the Gregorian calendar. -/
def daysInMonth (y m : Int) : Int :=
  if m = 2 then (if isLeapYear y then 29 else 28)
  else if m = 4 ∨ m = 6 ∨ m = 9 ∨ m = 11 then 30
  else 31

/-- Validity of the year/month/day components of a date string: exactly
the `YYYY-MM-DD` strings denoting real calendar dates. -/
def validYMD (y m d : Int) : Prop :=
  1 ≤ m ∧ m ≤ 12 ∧ 1 ≤ d ∧ d ≤ daysInMonth y m

instance (y m d : Int) : Decidable (validYMD y m d) :=
  inferInstanceAs (Decidable (1 ≤ m ∧ m ≤ 12 ∧ 1 ≤ d ∧ d ≤ daysInMonth y m))

/-! ### Data model -/

/-- An entry of the activity feed, as supplied by the data provider
(`activityFeed.feed` elements): an ISO-8601 timestamp, a `type` tag
(`"activity"` or `"redemption"`), and a signed points delta. -/
structure ActivityFeedItem where
  timestamp : String
  type : String
  points_change : Int
deriving DecidableEq

/-- A pre-aggregated daily row of `timelineData.timeline`. The three
numeric fields are optional in the provider's payload; `none` models an
absent (`undefined`) field, which the code defaults to `0` via `|| 0`. -/
structure TimelineRow where
  date : String
  points_earned : Option Int
  points_redeemed : Option Int
  redemptions_count : Option Int
deriving DecidableEq

/-- A value of the `dailyData` record in the activity-feed branch: one
bucket per date key, fields in source order. -/
structure Bucket where
  points : Int
  activities : Int
  redemptions : Int
  redeemed : Int
  date : String
deriving DecidableEq

/-- An element of the derived `chartData` sequence. The timeline branch of
the current component does not set `dataSource`, modelled as `none`
(the tooltip defaults it to `'timeline'`). -/
structure ChartPoint where
  name : String
  Points : Int
  Daily : Int
  Redeemed : Int
  Net : Int
  Redemptions : Int
  rawDate : String
  dataSource : Option String
deriving DecidableEq

/-! ### Branch A: series from the activity feed -/

/-- Date key of a feed item: `item.timestamp.split('T')[0]`. -/
def dateKeyOf (it : ActivityFeedItem) : String :=
  ⟨((splitOnChar 'T' it.timestamp.data).getD 0 [])⟩

/-- First predicate of the feed loop:
`item.type === 'activity' && item.points_change > 0`. -/
def isEarn (it : ActivityFeedItem) : Bool :=
  it.type == "activity" && decide (0 < it.points_change)

/-- Second predicate of the feed loop:
`item.type === 'redemption' && item.points_change < 0`. -/
def isRedeem (it : ActivityFeedItem) : Bool :=
  it.type == "redemption" && decide (it.points_change < 0)

/-- The zero-initialised bucket created for a date key on first sight
(`dailyData[dateKey] = { points: 0, activities: 0, ... }`). -/
def emptyBucket (k : String) : Bucket :=
  { points := 0, activities := 0, redemptions := 0, redeemed := 0, date := k }

/-- Model of `if (!dailyData[dateKey]) dailyData[dateKey] = emptyBucket`:
the record is a list of buckets in key-insertion order, so a missing key
appends a fresh bucket at the end. -/
def ensureBucket (acc : List Bucket) (k : String) : List Bucket :=
  if acc.any (fun b => b.date == k) then acc else acc ++ [emptyBucket k]

/-- In-place update of the bucket stored at key `k`. -/
def updateBucket (acc : List Bucket) (k : String) (f : Bucket → Bucket) : List Bucket :=
  acc.map (fun b => if b.date == k then f b else b)

/-- One iteration of `activityFeed.feed.forEach(item => ...)`: create the
day's bucket if missing, then add earning items to `points`/`activities`
and redemption items (stored as the positive `Math.abs(points_change)`)
to `redeemed`/`redemptions`; items matching neither predicate change no
field. -/
def addItem (acc : List Bucket) (it : ActivityFeedItem) : List Bucket :=
  let k := dateKeyOf it
  let acc2 := ensureBucket acc k
  if isEarn it then
    updateBucket acc2 k (fun b =>
      { b with points := b.points + it.points_change, activities := b.activities + 1 })
  else if isRedeem it then
    updateBucket acc2 k (fun b =>
      { b with redeemed := b.redeemed + (it.points_change.natAbs : Int),
               redemptions := b.redemptions + 1 })
  else acc2

/-- The `dailyData` record built from the whole feed, its values listed in
key-insertion order (the enumeration order of `Object.values` for these
non-index string keys). -/
def dailyData (feed : List ActivityFeedItem) : List Bucket :=
  feed.foldl addItem []

/-- Sort order of `Object.values(dailyData).sort((a, b) =>
new Date(a.date).getTime() - new Date(b.date).getTime())`. -/
def bucketLe (a b : Bucket) : Prop := dateVal a.date ≤ dateVal b.date

instance : DecidableRel bucketLe := fun a b =>
  inferInstanceAs (Decidable (dateVal a.date ≤ dateVal b.date))

instance : IsTotal Bucket bucketLe := ⟨fun _ _ => Int.le_total _ _⟩

instance : IsTrans Bucket bucketLe := ⟨fun _ _ _ => Int.le_trans⟩

/-- The `sortedDays` array: bucket values sorted ascending by date
(JavaScript `Array.prototype.sort` is stable; insertion sort models it). -/
def sortedDays (feed : List ActivityFeedItem) : List Bucket :=
  List.insertionSort bucketLe (dailyData feed)

/-- The `sortedDays.map((day, index) => ...)` walk with the
closure-captured `runningTotal`, threaded explicitly: net change of the
day, running total clamped at zero, one `ChartPoint` per bucket. -/
def feedPoints (tz : Int) (runningTotal : Int) : List Bucket → List ChartPoint
  | [] => []
  | day :: rest =>
    let netChange := day.points - day.redeemed
    let rt1 := runningTotal + netChange
    let rt2 := if rt1 < 0 then 0 else rt1
    { name := formatDate tz day.date
      Points := rt2
      Daily := day.points
      Redeemed := day.redeemed
      Net := netChange
      Redemptions := day.redemptions
      rawDate := day.date
      dataSource := some ("activity-feed") } :: feedPoints tz rt2 rest

/-- The `chartDataFromFeed` array before the final adjustment. -/
def chartDataFromFeedPre (tz : Int) (feed : List ActivityFeedItem) : List ChartPoint :=
  feedPoints tz 0 (sortedDays feed)

/-- Lookup of the bucket stored under date key `k`, the all-zero bucket if
the key is absent (specification helper for the filtering property). -/
def bucketFor (feed : List ActivityFeedItem) (k : String) : Bucket :=
  ((dailyData feed).find? (fun b => b.date == k)).getD (emptyBucket k)

/-! ### Branch B: series from the timeline -/

/-- Sort order of
`[...timeline].sort((a, b) => new Date(a.date).getTime() - new Date(b.date).getTime())`. -/
def rowLe (a b : TimelineRow) : Prop := dateVal a.date ≤ dateVal b.date

instance : DecidableRel rowLe := fun a b =>
  inferInstanceAs (Decidable (dateVal a.date ≤ dateVal b.date))

instance : IsTotal TimelineRow rowLe := ⟨fun _ _ => Int.le_total _ _⟩

instance : IsTrans TimelineRow rowLe := ⟨fun _ _ _ => Int.le_trans⟩

/-- The `sortedTimeline.map((item, index) => ...)` walk: daily net with
missing fields defaulted to zero, unclamped running total, one
`ChartPoint` per row. -/
def timelinePoints (tz : Int) (runningTotal : Int) : List TimelineRow → List ChartPoint
  | [] => []
  | item :: rest =>
    let dailyNet := item.points_earned.getD 0 - item.points_redeemed.getD 0
    let rt1 := runningTotal + dailyNet
    { name := formatDate tz item.date
      Points := rt1
      Daily := item.points_earned.getD 0
      Redeemed := item.points_redeemed.getD 0
      Net := dailyNet
      Redemptions := item.redemptions_count.getD 0
      rawDate := item.date
      dataSource := none } :: timelinePoints tz rt1 rest

/-- The `chartDataWithProgression` array before the final adjustment:
walk of a sorted copy (`[...timeline].sort(...)`) of the timeline. -/
def timelinePointsPre (tz : Int) (timeline : List TimelineRow) : List ChartPoint :=
  timelinePoints tz 0 (List.insertionSort rowLe timeline)

/-! ### Reconciliation adjustment and the full derivation -/

/-- The `calculatedFinal` read
`arr[arr.length - 1]?.Points || 0`: the last point's `Points`, `0` for the
empty array (`|| 0` maps only the value `0` to `0`, an identity). -/
def lastPoints (l : List ChartPoint) : Int :=
  (l.getLast?.map (fun p => p.Points)).getD 0

/-- The adjustment step shared by both branches: compute
`adjustment = correctTotalPoints - calculatedFinal` and, when
`Math.abs(adjustment) > 0`, add it to every point's `Points`. -/
def adjust (correctTotalPoints : Int) (l : List ChartPoint) : List ChartPoint :=
  let adjustment := correctTotalPoints - lastPoints l
  if 0 < adjustment.natAbs then
    l.map (fun p => { p with Points := p.Points + adjustment })
  else l

/-- The full `chartData` IIFE. Inputs model the provider snapshot:
`activityFeed` stands for `activityFeed?.feed` (`none` when the object or
its `feed` array is absent), `timelineData` for `timelineData?.timeline`
likewise, `totalPoints` for the optional authoritative total
(`totalPoints || 0` becomes `Option.getD 0`). Guard structure mirrors the
source: empty-inputs early return, activity-feed branch preferred, then
the timeline fallback with its own emptiness re-check. -/
def chartData (tz : Int) (activityFeed : Option (List ActivityFeedItem))
    (timelineData : Option (List TimelineRow)) (totalPoints : Option Int) :
    List ChartPoint :=
  if (activityFeed.getD []).length = 0 ∧ (timelineData.getD []).length = 0 then []
  else if (activityFeed.getD []).length ≠ 0 then
    adjust (totalPoints.getD 0) (chartDataFromFeedPre tz (activityFeed.getD []))
  else if (timelineData.getD []).length = 0 then []
  else adjust (totalPoints.getD 0) (timelinePointsPre tz (timelineData.getD []))

/-- The derived sequence before the adjustment step, with the same guard
structure (specification helper relating `chartData` to its
pre-adjustment form). -/
def preChartData (tz : Int) (activityFeed : Option (List ActivityFeedItem))
    (timelineData : Option (List TimelineRow)) : List ChartPoint :=
  if (activityFeed.getD []).length = 0 ∧ (timelineData.getD []).length = 0 then []
  else if (activityFeed.getD []).length ≠ 0 then
    chartDataFromFeedPre tz (activityFeed.getD [])
  else if (timelineData.getD []).length = 0 then []
  else timelinePointsPre tz (timelineData.getD [])

/-- The render condition of the component's body:
`!timelineData || chartData.length === 0` selects the empty-state
placeholder panel, its negation the line chart. -/
def rendersPlaceholder (timelineData : Option (List TimelineRow))
    (chart : List ChartPoint) : Bool :=
  timelineData.isNone || chart.length == 0

/-- Consecutive differences of an integer sequence (specification helper
for the shape-preservation property of the adjustment). -/
def diffs : List Int → List Int
  | a :: b :: rest => (b - a) :: diffs (b :: rest)
  | _ => []

/-- Snapshot of the two provider-owned input arrays, for stating that the
derivation does not write to them. -/
structure DashboardSnapshot where
  activityFeed : Option (List ActivityFeedItem)
  timelineData : Option (List TimelineRow)
deriving DecidableEq

/-- State-threading form of `chartData` over the provider snapshot: array
reads and writes of the source are made explicit. The feed branch only
reads `activityFeed.feed` (`forEach`); the timeline branch sorts the
spread copy `[...timeline]` in place (JavaScript `sort` mutates its
receiver, here the copy), leaving the snapshot's array untouched; the
returned snapshot is the component's view of the arrays afterwards. -/
def chartDataStore (tz : Int) (st : DashboardSnapshot) (totalPoints : Option Int) :
    List ChartPoint × DashboardSnapshot :=
  let feed := st.activityFeed.getD []
  let tl := st.timelineData.getD []
  if feed.length = 0 ∧ tl.length = 0 then ([], st)
  else if feed.length ≠ 0 then
    (adjust (totalPoints.getD 0) (feedPoints tz 0 (List.insertionSort bucketLe (dailyData feed))), st)
  else if tl.length = 0 then ([], st)
  else
    let copied := tl
    let sortedTimeline := List.insertionSort rowLe copied
    (adjust (totalPoints.getD 0) (timelinePoints tz 0 sortedTimeline), st)

/-! ### Helper lemmas -/

theorem points_add_zero (p : ChartPoint) : { p with Points := p.Points + 0 } = p := by
  cases p; simp

theorem adjust_eq_map (t : Int) (l : List ChartPoint) :
    adjust t l = l.map (fun p => { p with Points := p.Points + (t - lastPoints l) }) := by
  simp only [adjust]
  split
  · rfl
  · rename_i h
    have h0 : t - lastPoints l = 0 := by omega
    rw [h0]
    simp [points_add_zero]

theorem adjust_nil (t : Int) : adjust t [] = [] := by
  rw [adjust_eq_map]; rfl

theorem chartData_eq_adjust_pre (tz : Int) (af : Option (List ActivityFeedItem))
    (td : Option (List TimelineRow)) (tp : Option Int) :
    chartData tz af td tp = adjust (tp.getD 0) (preChartData tz af td) := by
  unfold chartData preChartData
  split_ifs <;> simp [adjust_nil]

theorem adjust_getLast (t : Int) (l : List ChartPoint) (h : l ≠ []) :
    (adjust t l).getLast?.map (fun p => p.Points) = some t := by
  rw [adjust_eq_map, List.getLast?_map]
  rw [List.getLast?_eq_getLast l h]
  have hl : lastPoints l = (l.getLast h).Points := by
    simp [lastPoints, List.getLast?_eq_getLast l h]
  simp [hl]

theorem adjust_eq_nil_iff (t : Int) (l : List ChartPoint) :
    adjust t l = [] ↔ l = [] := by
  rw [adjust_eq_map, List.map_eq_nil_iff]

theorem feedPoints_nonneg (tz : Int) (rt : Int) (days : List Bucket) :
    ∀ p ∈ feedPoints tz rt days, 0 ≤ p.Points := by
  induction days generalizing rt with
  | nil => simp [feedPoints]
  | cons day rest ih =>
    intro p hp
    simp only [feedPoints, List.mem_cons] at hp
    rcases hp with h | h
    · subst h
      dsimp only
      split <;> omega
    · exact ih _ p h

theorem diffs_map_add (c : Int) (l : List Int) :
    diffs (l.map (fun x => x + c)) = diffs l := by
  induction l with
  | nil => rfl
  | cons a tl ih =>
    cases tl with
    | nil => rfl
    | cons b rest =>
      simp only [List.map_cons] at ih ⊢
      simp only [diffs, ih]
      congr 1
      omega

/-! ### Claims -/

/-- C1. For every non-empty derived sequence (either branch), after the
reconciliation adjustment the last `ChartPoint`'s `Points` equals the
supplied `totalPoints`, with `totalPoints` treated as `0` when it is
undefined. -/
theorem chartData_last_eq_totalPoints (tz : Int) (af : Option (List ActivityFeedItem))
    (td : Option (List TimelineRow)) (tp : Option Int)
    (h : chartData tz af td tp ≠ []) :
    (chartData tz af td tp).getLast?.map (fun p => p.Points) = some (tp.getD 0) := by
  rw [chartData_eq_adjust_pre] at h ⊢
  exact adjust_getLast _ _ (fun hnil => h (by rw [hnil, adjust_nil]))

/-- Witness for C1 at a concrete input: scenario 1 of the spec with
`totalPoints = 12`. -/
theorem chartData_last_eq_totalPoints_witness :
    (chartData 0 (some
      [⟨"2025-09-01T10:00:00Z", "activity", 10⟩,
       ⟨"2025-09-01T11:00:00Z", "activity", 5⟩,
       ⟨"2025-09-02T09:00:00Z", "redemption", -3⟩]) none (some 12)).getLast?.map
        (fun p => p.Points) = some 12 :=
  chartData_last_eq_totalPoints 0
    (some
      [⟨"2025-09-01T10:00:00Z", "activity", 10⟩,
       ⟨"2025-09-01T11:00:00Z", "activity", 5⟩,
       ⟨"2025-09-02T09:00:00Z", "redemption", -3⟩]) none (some 12) (by decide)

/-- C5. In the activity-feed branch, every running total emitted as
`Points` before the reconciliation adjustment is nonnegative: the walk
clamps any step that would go negative to exactly `0`. -/
theorem feed_branch_points_nonneg (tz : Int) (feed : List ActivityFeedItem)
    (p : ChartPoint) (hp : p ∈ chartDataFromFeedPre tz feed) : 0 ≤ p.Points :=
  feedPoints_nonneg tz 0 (sortedDays feed) p hp

/-- Witness for C5: a feed whose only day is a redemption, so the raw
running total would be `-5` and the emitted point is clamped to `0`. -/
theorem feed_branch_points_nonneg_witness :
    0 ≤ ({ name := "Jan 1", Points := 0, Daily := 0, Redeemed := 5, Net := -5,
           Redemptions := 1, rawDate := "2025-01-01",
           dataSource := some ("activity-feed") } : ChartPoint).Points :=
  feed_branch_points_nonneg 0 [⟨"2025-01-01T08:00:00Z", "redemption", -5⟩]
    { name := "Jan 1", Points := 0, Daily := 0, Redeemed := 5, Net := -5,
      Redemptions := 1, rawDate := "2025-01-01",
      dataSource := some ("activity-feed") } (by decide)

/-- C7. In both branches the adjustment is added to every point's
`Points` (uniform shift relative to the pre-adjustment sequence), the
`Daily`, `Redeemed`, `Net` and `Redemptions` fields are identical before
and after it, and consecutive differences of `Points` are unchanged. -/
theorem adjustment_uniform_frame (tz : Int) (af : Option (List ActivityFeedItem))
    (td : Option (List TimelineRow)) (tp : Option Int) :
    (chartData tz af td tp).map (fun p => p.Points) =
      (preChartData tz af td).map
        (fun p => p.Points + (tp.getD 0 - lastPoints (preChartData tz af td))) ∧
    (chartData tz af td tp).map (fun p => p.Daily) =
      (preChartData tz af td).map (fun p => p.Daily) ∧
    (chartData tz af td tp).map (fun p => p.Redeemed) =
      (preChartData tz af td).map (fun p => p.Redeemed) ∧
    (chartData tz af td tp).map (fun p => p.Net) =
      (preChartData tz af td).map (fun p => p.Net) ∧
    (chartData tz af td tp).map (fun p => p.Redemptions) =
      (preChartData tz af td).map (fun p => p.Redemptions) ∧
    diffs ((chartData tz af td tp).map (fun p => p.Points)) =
      diffs ((preChartData tz af td).map (fun p => p.Points)) := by
  rw [chartData_eq_adjust_pre, adjust_eq_map]
  refine ⟨by rw [List.map_map]; rfl, by rw [List.map_map]; rfl, by rw [List.map_map]; rfl,
    by rw [List.map_map]; rfl, by rw [List.map_map]; rfl, ?_⟩
  rw [List.map_map]
  have : ((preChartData tz af td).map
      (fun p => ({ p with Points := p.Points + (tp.getD 0 - lastPoints (preChartData tz af td)) } :
        ChartPoint).Points)) =
      ((preChartData tz af td).map (fun p => p.Points)).map
        (fun x => x + (tp.getD 0 - lastPoints (preChartData tz af td))) := by
    rw [List.map_map]; rfl
  rw [show ((fun p => p.Points) ∘ fun p =>
      ({ p with Points := p.Points + (tp.getD 0 - lastPoints (preChartData tz af td)) } :
        ChartPoint)) = fun p : ChartPoint =>
      p.Points + (tp.getD 0 - lastPoints (preChartData tz af td)) from rfl]
  rw [show ((preChartData tz af td).map (fun p =>
      p.Points + (tp.getD 0 - lastPoints (preChartData tz af td)))) =
      ((preChartData tz af td).map (fun p => p.Points)).map
        (fun x => x + (tp.getD 0 - lastPoints (preChartData tz af td))) by
    rw [List.map_map]; rfl]
  exact diffs_map_add _ _

/-- C3 counterexample. With `timelineData` absent and a non-empty
activity feed, the derived sequence is non-empty, yet the component's
render condition `!timelineData || chartData.length === 0` still selects
the empty-state placeholder, so the presentation is not a function of the
derived sequence alone. -/
theorem placeholder_despite_nonempty_chart :
    chartData 0 (some [⟨"2025-01-01T10:00:00Z", "activity", 5⟩]) none (some 5) ≠ [] ∧
    rendersPlaceholder none
      (chartData 0 (some [⟨"2025-01-01T10:00:00Z", "activity", 5⟩]) none (some 5)) = true := by
  constructor
  · decide
  · rfl

/-- C3 amended. The placeholder is rendered exactly when `timelineData`
is absent or the derived sequence is empty; equivalently, the line chart
is rendered exactly when `timelineData` is present and the derived
sequence is non-empty — so a sequence produced by the activity feed alone
is not charted. -/
theorem placeholder_iff_no_timeline_or_empty (tz : Int)
    (af : Option (List ActivityFeedItem)) (td : Option (List TimelineRow))
    (tp : Option Int) :
    rendersPlaceholder td (chartData tz af td tp) = false ↔
      td.isSome = true ∧ chartData tz af td tp ≠ [] := by
  cases td <;>
    simp [rendersPlaceholder, List.length_eq_zero]

/-- C4. In the timeline branch the running total is not clamped: on the
spec's scenario 3 (`points_earned = 5`, `points_redeemed = 8`,
`totalPoints = 0`) the pre-adjustment point carries `Points = -3`, the
adjustment is `3`, and the final point's `Points` is `0`. -/
theorem timeline_branch_no_clamp :
    timelinePointsPre 0 [⟨"2025-01-01", some 5, some 8, none⟩] =
      [{ name := "Jan 1", Points := -3, Daily := 5, Redeemed := 8, Net := -3,
         Redemptions := 0, rawDate := "2025-01-01", dataSource := none }] ∧
    (some 0 : Option Int).getD 0 -
      lastPoints (timelinePointsPre 0 [⟨"2025-01-01", some 5, some 8, none⟩]) = 3 ∧
    chartData 0 (some []) (some [⟨"2025-01-01", some 5, some 8, none⟩]) (some 0) =
      [{ name := "Jan 1", Points := 0, Daily := 5, Redeemed := 8, Net := -3,
         Redemptions := 0, rawDate := "2025-01-01", dataSource := none }] := by
  refine ⟨by decide, by decide, by decide⟩

/-- C8 counterexample. The older component's `formatDate`
(`new Date("2025-09-08")`, parsed as UTC midnight) renders the previous
day in a timezone 300 minutes west of UTC: the displayed day-of-month
does not match the input string in every timezone. -/
theorem generic_formatDate_shifts_day :
    formatDateGeneric (-300) "2025-09-08" = "Sep 7" ∧
    formatDateGeneric (-300) "2025-09-08" ≠ "Sep 8" := by
  refine ⟨by decide, by decide⟩

theorem yoe_recover (c a r doy : Int)
    (hc : 0 ≤ c ∧ c ≤ 3) (ha : 0 ≤ a ∧ a ≤ 24) (hr : 0 ≤ r ∧ r ≤ 3)
    (hdoy : 0 ≤ doy ∧ doy ≤ 365)
    (hleap : doy = 365 → r = 3 ∧ (a = 24 → c = 3)) :
    ((36524 * c + 1461 * a + 365 * r + doy) -
        (36524 * c + 1461 * a + 365 * r + doy) / 1460 +
        (36524 * c + 1461 * a + 365 * r + doy) / 36524 -
        (36524 * c + 1461 * a + 365 * r + doy) / 146096) / 365 = 100 * c + 4 * a + r := by
  have hM : 1461 * a + 365 * r + doy ≤ 36523 ∨
      (1461 * a + 365 * r + doy = 36524 ∧ c = 3) := by omega
  have hBeq : 36524 * c + 1461 * a + 365 * r + doy =
      (24 * c + 1 * a + 365 * r + doy) + (25 * c + a) * 1460 := by ring
  have hB : (36524 * c + 1461 * a + 365 * r + doy) / 1460 =
      (24 * c + 1 * a + 365 * r + doy) / 1460 + (25 * c + a) := by
    rw [hBeq, Int.add_mul_ediv_right _ _ (by norm_num : (1460 : Int) ≠ 0)]
  have hR : (24 * c + 1 * a + 365 * r + doy) / 1460 = 0 ∨
      ((24 * c + 1 * a + 365 * r + doy) / 1460 = 1 ∧
        1460 ≤ 24 * c + 1 * a + 365 * r + doy) := by
    omega
  rcases hM with hM | hM
  · have hg : (36524 * c + 1461 * a + 365 * r + doy) / 36524 = c := by
      have h1 : 36524 * c + 1461 * a + 365 * r + doy =
          (1461 * a + 365 * r + doy) + c * 36524 := by ring
      rw [h1, Int.add_mul_ediv_right _ _ (by norm_num : (36524 : Int) ≠ 0)]
      omega
    have hi : (36524 * c + 1461 * a + 365 * r + doy) / 146096 = 0 := by
      have h1 : (0 : Int) ≤ 36524 * c + 1461 * a + 365 * r + doy := by omega
      have h2 : 36524 * c + 1461 * a + 365 * r + doy < 146096 := by omega
      omega
    rcases hR with hR | hR <;> omega
  · obtain ⟨hM1, hM2⟩ := hM
    subst hM2
    have hD : 36524 * 3 + 1461 * a + 365 * r + doy = 146096 := by omega
    rw [hD]
    have ha24 : a = 24 := by omega
    have hr3 : r = 3 := by omega
    have hdoy365 : doy = 365 := by omega
    subst ha24; subst hr3; subst hdoy365
    decide

theorem civil_recover (z era doe yoe doy mp y2 m d y : Int)
    (hz : z + 719468 = era * 146097 + doe)
    (hdoe : 0 ≤ doe ∧ doe ≤ 146096)
    (hdoeEq : doe = yoe * 365 + yoe / 4 - yoe / 100 + doy)
    (hyoe : 0 ≤ yoe ∧ yoe ≤ 399)
    (hdoyEq : doy = (153 * mp + 2) / 5 + d - 1)
    (hmp : 0 ≤ mp ∧ mp ≤ 11)
    (hd : 1 ≤ d)
    (hdoyLe : doy ≤ 364 ∨ (doy = 365 ∧ (yoe + 1) % 4 = 0 ∧ ((yoe + 1) % 100 ≠ 0 ∨ yoe = 399)))
    (hdub : doy ≤ (153 * (mp + 1) + 2) / 5 - 1 ∨ (mp = 11 ∧ doy ≤ 365))
    (hy2 : y2 = era * 400 + yoe)
    (hm : m = if mp < 10 then mp + 3 else mp - 9)
    (hy : y = if m ≤ 2 then y2 + 1 else y2) :
    civilFromDays z = (y, m, d) := by
  have c1460 : ∀ x : Int, Int.fdiv x 1460 = x / 1460 :=
    fun x => Int.fdiv_eq_ediv x (by norm_num)
  have c36524 : ∀ x : Int, Int.fdiv x 36524 = x / 36524 :=
    fun x => Int.fdiv_eq_ediv x (by norm_num)
  have c146096 : ∀ x : Int, Int.fdiv x 146096 = x / 146096 :=
    fun x => Int.fdiv_eq_ediv x (by norm_num)
  have c146097 : ∀ x : Int, Int.fdiv x 146097 = x / 146097 :=
    fun x => Int.fdiv_eq_ediv x (by norm_num)
  have c365 : ∀ x : Int, Int.fdiv x 365 = x / 365 :=
    fun x => Int.fdiv_eq_ediv x (by norm_num)
  have c153 : ∀ x : Int, Int.fdiv x 153 = x / 153 :=
    fun x => Int.fdiv_eq_ediv x (by norm_num)
  have c5 : ∀ x : Int, Int.fdiv x 5 = x / 5 :=
    fun x => Int.fdiv_eq_ediv x (by norm_num)
  have c4 : ∀ x : Int, Int.fdiv x 4 = x / 4 :=
    fun x => Int.fdiv_eq_ediv x (by norm_num)
  have c100 : ∀ x : Int, Int.fdiv x 100 = x / 100 :=
    fun x => Int.fdiv_eq_ediv x (by norm_num)
  simp only [civilFromDays, c1460, c36524, c146096, c146097, c365, c153, c5, c4, c100]
  rw [hz]
  have hera : (era * 146097 + doe) / 146097 = era := by
    have h1 : era * 146097 + doe = doe + era * 146097 := by ring
    rw [h1, Int.add_mul_ediv_right _ _ (by norm_num : (146097 : Int) ≠ 0)]
    omega
  rw [hera]
  have hdoe2 : era * 146097 + doe - era * 146097 = doe := by ring
  rw [hdoe2]
  have hyoeRec : (doe - doe / 1460 + doe / 36524 - doe / 146096) / 365 = yoe := by
    have h1 := yoe_recover (yoe / 100) ((yoe % 100) / 4) ((yoe % 100) % 4) doy
      (by omega) (by omega) (by omega) (by omega)
      (by intro h365; omega)
    have hDeq : 36524 * (yoe / 100) + 1461 * ((yoe % 100) / 4) + 365 * ((yoe % 100) % 4) + doy
        = doe := by omega
    have hyoeEq : 100 * (yoe / 100) + 4 * ((yoe % 100) / 4) + (yoe % 100) % 4 = yoe := by omega
    rw [hDeq, hyoeEq] at h1
    exact h1
  rw [hyoeRec]
  have hdoyRec : doe - (365 * yoe + yoe / 4 - yoe / 100) = doy := by omega
  rw [hdoyRec]
  have hmpRec : (5 * doy + 2) / 153 = mp := by omega
  rw [hmpRec]
  have hdRec : doy - (153 * mp + 2) / 5 + 1 = d := by omega
  rw [hdRec]
  have hmRec : (if mp < 10 then mp + 3 else mp - 9) = m := hm.symm
  rw [hmRec]
  have hyRec : (if m ≤ 2 then yoe + era * 400 + 1 else yoe + era * 400) = y := by
    rw [hy]
    split_ifs <;> omega
  rw [hyRec]

theorem month_bound (y m d : Int) (hm1 : 1 ≤ m) (hm2 : m ≤ 12) (hd1 : 1 ≤ d)
    (hd2 : d ≤ daysInMonth y m) :
    ((153 * ((m + 9) % 12) + 2) / 5 + d - 1 ≤ 364 ∨
      ((153 * ((m + 9) % 12) + 2) / 5 + d - 1 = 365 ∧ m = 2 ∧
        y % 4 = 0 ∧ (y % 100 ≠ 0 ∨ y % 400 = 0))) ∧
    ((153 * ((m + 9) % 12) + 2) / 5 + d - 1 ≤ (153 * (((m + 9) % 12) + 1) + 2) / 5 - 1 ∨
      ((m + 9) % 12 = 11 ∧ (153 * ((m + 9) % 12) + 2) / 5 + d - 1 ≤ 365)) := by
  interval_cases m
  · norm_num [daysInMonth] at hd2; omega
  · norm_num [daysInMonth] at hd2
    split_ifs at hd2 with hleap
    · simp only [isLeapYear] at hleap; omega
    · simp only [isLeapYear] at hleap; push_neg at hleap; omega
  · norm_num [daysInMonth] at hd2; omega
  · norm_num [daysInMonth] at hd2; omega
  · norm_num [daysInMonth] at hd2; omega
  · norm_num [daysInMonth] at hd2; omega
  · norm_num [daysInMonth] at hd2; omega
  · norm_num [daysInMonth] at hd2; omega
  · norm_num [daysInMonth] at hd2; omega
  · norm_num [daysInMonth] at hd2; omega
  · norm_num [daysInMonth] at hd2; omega
  · norm_num [daysInMonth] at hd2; omega

theorem civilFromDays_daysFromCivil (y m d : Int) (hm1 : 1 ≤ m) (hm2 : m ≤ 12)
    (hd1 : 1 ≤ d) (hd2 : d ≤ daysInMonth y m) :
    civilFromDays (daysFromCivil y m d) = (y, m, d) := by
  have hbounds := month_bound y m d hm1 hm2 hd1 hd2
  set y2 := if m ≤ 2 then y - 1 else y with hy2
  set era := y2 / 400 with hera
  set yoe := y2 - era * 400 with hyoe
  set mp := (m + 9) % 12 with hmp
  set doy := (153 * mp + 2) / 5 + d - 1 with hdoy
  set doe := yoe * 365 + yoe / 4 - yoe / 100 + doy with hdoe
  have hy2' : (m ≤ 2 ∧ y2 = y - 1) ∨ (¬ m ≤ 2 ∧ y2 = y) := by
    rw [hy2]; split_ifs with h
    · exact Or.inl ⟨h, rfl⟩
    · exact Or.inr ⟨h, rfl⟩
  apply civil_recover (daysFromCivil y m d) era doe yoe doy mp y2 m d y
  · have c400 : ∀ x : Int, Int.fdiv x 400 = x / 400 :=
      fun x => Int.fdiv_eq_ediv x (by norm_num)
    have c4 : ∀ x : Int, Int.fdiv x 4 = x / 4 :=
      fun x => Int.fdiv_eq_ediv x (by norm_num)
    have c100 : ∀ x : Int, Int.fdiv x 100 = x / 100 :=
      fun x => Int.fdiv_eq_ediv x (by norm_num)
    have c5 : ∀ x : Int, Int.fdiv x 5 = x / 5 :=
      fun x => Int.fdiv_eq_ediv x (by norm_num)
    have cm12 : ∀ x : Int, Int.fmod x 12 = x % 12 :=
      fun x => Int.fmod_eq_emod x (by norm_num)
    rw [hdoe, hdoy, hyoe, hera, hy2, hmp]
    simp only [daysFromCivil, c400, c4, c100, c5, cm12]
    rw [Int.sub_add_cancel]
  · omega
  · exact hdoe
  · omega
  · exact hdoy
  · omega
  · exact hd1
  · rcases hbounds.1 with h | ⟨h365, hm2', hleap⟩
    · exact Or.inl h
    · refine Or.inr ⟨h365, ?_, ?_⟩ <;> omega
  · exact hbounds.2
  · omega
  · split_ifs <;> omega
  · rw [hy2]; split_ifs <;> omega

theorem jsDateDays_eq (y m d : Int) (hm1 : 1 ≤ m) (hm2 : m ≤ 12) :
    jsDateDays y m d = daysFromCivil y m d := by
  have h1 : Int.fdiv (y * 12 + (m - 1)) 12 = y := by
    rw [Int.fdiv_eq_ediv _ (by norm_num)]; omega
  have h2 : Int.fmod (y * 12 + (m - 1)) 12 + 1 = m := by
    rw [Int.fmod_eq_emod _ (by norm_num)]; omega
  simp only [jsDateDays, h1, h2]
  simp only [daysFromCivil]
  ring

/-- C8 amended. The component-wise `formatDate` of
`src/components/Dashboard/ActivityGraph.tsx` matches its input in every
timezone offset: for every input string whose `YYYY-MM-DD` components
denote a valid calendar date, the produced label carries exactly the
input's month and day-of-month — whereas the generic-parse variant kept
in the older component (`src/unnamed/part_000`) shifts the displayed day
in timezones west of UTC. -/
theorem formatDate_day_matches_input (tz : Int) (s : String) (y m d : Int)
    (hp : parseYMD s = (y, m, d)) (hv : validYMD y m d) :
    formatDate tz s = monthShort m ++ " " ++ toString d := by
  obtain ⟨hm1, hm2, hd1, hd2⟩ := hv
  simp only [formatDate, hp]
  have hcancel : jsDateDays y m d * 1440 - tz + tz = jsDateDays y m d * 1440 := by ring
  rw [hcancel]
  rw [Int.fdiv_eq_ediv _ (by norm_num)]
  rw [Int.mul_ediv_cancel _ (by norm_num : (1440 : Int) ≠ 0)]
  rw [jsDateDays_eq y m d hm1 hm2]
  rw [civilFromDays_daysFromCivil y m d hm1 hm2 hd1 hd2]

/-- Witness for C8's amended claim: in a timezone 300 minutes west of
UTC, `"2025-09-08"` still formats to `"Sep 8"`. -/
theorem formatDate_day_matches_input_witness :
    formatDate (-300) "2025-09-08" = monthShort 9 ++ " " ++ toString 8 ∧
    monthShort 9 ++ " " ++ toString 8 = "Sep 8" :=
  ⟨formatDate_day_matches_input (-300) "2025-09-08" 2025 9 8 (by decide) (by decide),
    by decide⟩

/-- C9. Non-negativity of displayed `Points` is not preserved by the full
derivation: with daily net changes `+2` then `+10` and `totalPoints = 0`,
every pre-adjustment running total is clamped at zero (here `2` and `12`),
yet after the reconciliation adjustment the first emitted point's `Points`
is `-10`. -/
theorem adjustment_can_make_points_negative :
    (chartDataFromFeedPre 0
      [⟨"2025-01-01T00:00:00Z", "activity", 2⟩,
       ⟨"2025-01-02T00:00:00Z", "activity", 10⟩]).all
        (fun p => decide (0 ≤ p.Points)) = true ∧
    (chartData 0 (some
      [⟨"2025-01-01T00:00:00Z", "activity", 2⟩,
       ⟨"2025-01-02T00:00:00Z", "activity", 10⟩]) none (some 0)).map
        (fun p => p.Points) = [-10, 0] ∧
    (chartData 0 (some
      [⟨"2025-01-01T00:00:00Z", "activity", 2⟩,
       ⟨"2025-01-02T00:00:00Z", "activity", 10⟩]) none (some 0)).any
        (fun p => decide (p.Points < 0)) = true := by
  refine ⟨by decide, by decide, by decide⟩

/-- C10. The derivation leaves the provider's arrays unchanged: in the
state-threading form the snapshot returned after computing the series is
the input snapshot (the timeline branch sorts the spread copy, the feed
branch only reads), and the computed series agrees with the pure
`chartData`. -/
theorem chartData_preserves_inputs (tz : Int) (st : DashboardSnapshot)
    (tp : Option Int) :
    (chartDataStore tz st tp).2 = st ∧
    (chartDataStore tz st tp).1 = chartData tz st.activityFeed st.timelineData tp := by
  unfold chartDataStore chartData
  dsimp only
  split_ifs <;> exact ⟨rfl, rfl⟩

/-- C2 counterexample. A feed whose only item matches neither predicate
(an `"activity"` with `points_change = -5`) does not produce the same
output as the feed without it: the item still creates its date's (all
zero) bucket, so one `ChartPoint` is emitted for that date, whereas the
empty feed yields the empty sequence. -/
theorem nonmatching_item_changes_output :
    chartData 0 (some [⟨"2025-01-02T00:00:00Z", "activity", -5⟩]) none (some 0) ≠
      chartData 0 (some []) none (some 0) ∧
    chartData 0 (some [⟨"2025-01-02T00:00:00Z", "activity", -5⟩]) none (some 0) =
      [{ name := "Jan 2", Points := 0, Daily := 0, Redeemed := 0, Net := 0,
         Redemptions := 0, rawDate := "2025-01-02", dataSource := some ("activity-feed") }] ∧
    chartData 0 (some []) none (some 0) = [] := by
  refine ⟨by decide, by decide, by decide⟩

/-- C2 amended. An item matching neither predicate adds nothing to any
bucket's accumulated fields — the bucket stored under every date key is
unchanged (an absent key reads as the all-zero bucket) — but it does
ensure the (all-zero) bucket for its own date exists, so the bucket
key sequence may grow by that date; a feed whose items on some date are
all non-matching therefore emits a `ChartPoint` for that date instead of
dropping it. -/
theorem nonmatching_item_adds_no_points (feed : List ActivityFeedItem)
    (it : ActivityFeedItem) (k : String)
    (h1 : isEarn it = false) (h2 : isRedeem it = false) :
    bucketFor (feed ++ [it]) k = bucketFor feed k ∧
    (dailyData (feed ++ [it])).map (fun b => b.date) =
      (if (dailyData feed).any (fun b => b.date == dateKeyOf it) then
        (dailyData feed).map (fun b => b.date)
      else (dailyData feed).map (fun b => b.date) ++ [dateKeyOf it]) := by
  have hd : dailyData (feed ++ [it]) = ensureBucket (dailyData feed) (dateKeyOf it) := by
    unfold dailyData
    rw [List.foldl_append]
    simp [addItem, h1, h2]
  by_cases hany : (dailyData feed).any (fun b => b.date == dateKeyOf it) = true
  · refine ⟨?_, ?_⟩
    · rw [bucketFor, hd, ensureBucket, if_pos hany]; rfl
    · rw [hd, ensureBucket, if_pos hany, if_pos hany]
  · have hnone : (dailyData feed).find? (fun b => b.date == dateKeyOf it) = none := by
      rw [List.find?_eq_none]
      intro x hx hbx
      exact hany (List.any_eq_true.mpr ⟨x, hx, hbx⟩)
    refine ⟨?_, ?_⟩
    · rw [bucketFor, bucketFor, hd, ensureBucket, if_neg hany, List.find?_append]
      by_cases hk : dateKeyOf it = k
      · subst hk
        rw [hnone]
        simp [emptyBucket]
      · have hsingle :
            List.find? (fun b => b.date == k) [emptyBucket (dateKeyOf it)] = none := by
          simp [emptyBucket, hk]
        rw [hsingle]
        simp
    · rw [hd, ensureBucket, if_neg hany, if_neg hany, List.map_append]
      rfl

/-- Witness for C2's amended claim at a concrete input: a matching
earning on Jan 1 followed by a non-matching negative `"activity"` item on
Jan 2. -/
theorem nonmatching_item_adds_no_points_witness :
    bucketFor ([⟨"2025-01-01T00:00:00Z", "activity", 3⟩] ++
        [⟨"2025-01-02T00:00:00Z", "activity", -5⟩]) "2025-01-02" =
      bucketFor [⟨"2025-01-01T00:00:00Z", "activity", 3⟩] "2025-01-02" ∧
    (dailyData ([⟨"2025-01-01T00:00:00Z", "activity", 3⟩] ++
        [⟨"2025-01-02T00:00:00Z", "activity", -5⟩])).map (fun b => b.date) =
      (if (dailyData [⟨"2025-01-01T00:00:00Z", "activity", 3⟩]).any
          (fun b => b.date == dateKeyOf ⟨"2025-01-02T00:00:00Z", "activity", -5⟩) then
        (dailyData [⟨"2025-01-01T00:00:00Z", "activity", 3⟩]).map (fun b => b.date)
      else (dailyData [⟨"2025-01-01T00:00:00Z", "activity", 3⟩]).map (fun b => b.date) ++
        [dateKeyOf ⟨"2025-01-02T00:00:00Z", "activity", -5⟩]) :=
  nonmatching_item_adds_no_points _ _ _ (by decide) (by decide)

theorem feedPoints_keys (tz rt : Int) (days : List Bucket) :
    (feedPoints tz rt days).map (fun p => dateVal p.rawDate) =
      days.map (fun b => dateVal b.date) := by
  induction days generalizing rt with
  | nil => rfl
  | cons day rest ih => simp [feedPoints, ih]

theorem timelinePoints_keys (tz rt : Int) (rows : List TimelineRow) :
    (timelinePoints tz rt rows).map (fun p => dateVal p.rawDate) =
      rows.map (fun r => dateVal r.date) := by
  induction rows generalizing rt with
  | nil => rfl
  | cons r rest ih => simp [timelinePoints, ih]

theorem adjust_keys (t : Int) (l : List ChartPoint) :
    (adjust t l).map (fun p => dateVal p.rawDate) =
      l.map (fun p => dateVal p.rawDate) := by
  rw [adjust_eq_map, List.map_map]; rfl

theorem chain_le_key_feed (tz : Int) (feed : List ActivityFeedItem) :
    List.Chain' (· ≤ ·)
      ((chartDataFromFeedPre tz feed).map (fun p => dateVal p.rawDate)) := by
  rw [chartDataFromFeedPre, feedPoints_keys]
  have hs : List.Pairwise (fun a b : Bucket => dateVal a.date ≤ dateVal b.date)
      (sortedDays feed) := List.sorted_insertionSort bucketLe _
  exact (List.pairwise_map.mpr hs).chain'

theorem chain_le_key_timeline (tz : Int) (tl : List TimelineRow) :
    List.Chain' (· ≤ ·)
      ((timelinePointsPre tz tl).map (fun p => dateVal p.rawDate)) := by
  rw [timelinePointsPre, timelinePoints_keys]
  have hs : List.Pairwise (fun a b : TimelineRow => dateVal a.date ≤ dateVal b.date)
      (List.insertionSort rowLe tl) := List.sorted_insertionSort rowLe _
  exact (List.pairwise_map.mpr hs).chain'

theorem chain_lt_key_feed (tz : Int) (feed : List ActivityFeedItem)
    (hnd : ((dailyData feed).map (fun b => dateVal b.date)).Nodup) :
    List.Chain' (· < ·)
      ((chartDataFromFeedPre tz feed).map (fun p => dateVal p.rawDate)) := by
  rw [chartDataFromFeedPre, feedPoints_keys]
  have hs : List.Pairwise (fun a b : Bucket => dateVal a.date ≤ dateVal b.date)
      (sortedDays feed) := List.sorted_insertionSort bucketLe _
  have hperm : (sortedDays feed).Perm (dailyData feed) := List.perm_insertionSort bucketLe _
  have hnd2 : ((sortedDays feed).map (fun b => dateVal b.date)).Nodup :=
    ((hperm.map _).nodup_iff).mpr hnd
  have hne : List.Pairwise (fun a b : Bucket => dateVal a.date ≠ dateVal b.date)
      (sortedDays feed) := List.pairwise_map.mp hnd2
  exact (List.pairwise_map.mpr ((hs.and hne).imp fun h => lt_of_le_of_ne h.1 h.2)).chain'

/-- C6 counterexample. A timeline with two rows on the same date is not
deduplicated: the derived sequence repeats the date, so it is not sorted
strictly ascending by `rawDate`. -/
theorem duplicate_dates_not_strictly_sorted :
    (chartData 0 (some []) (some
      [⟨"2025-01-01", some 1, none, none⟩,
       ⟨"2025-01-01", some 2, none, none⟩]) (some 3)).map (fun p => p.rawDate) =
      ["2025-01-01", "2025-01-01"] ∧
    ¬ List.Chain' (fun p q => dateVal p.rawDate < dateVal q.rawDate)
      (chartData 0 (some []) (some
        [⟨"2025-01-01", some 1, none, none⟩,
         ⟨"2025-01-01", some 2, none, none⟩]) (some 3)) := by
  have hEq : chartData 0 (some []) (some
      [⟨"2025-01-01", some 1, none, none⟩,
       ⟨"2025-01-01", some 2, none, none⟩]) (some 3) =
      [{ name := "Jan 1", Points := 1, Daily := 1, Redeemed := 0, Net := 1,
         Redemptions := 0, rawDate := "2025-01-01", dataSource := none },
       { name := "Jan 1", Points := 3, Daily := 2, Redeemed := 0, Net := 2,
         Redemptions := 0, rawDate := "2025-01-01", dataSource := none }] := by decide
  refine ⟨by decide, ?_⟩
  intro h
  rw [hEq] at h
  exact absurd (List.chain'_cons.mp h).1 (by decide)

/-- C6 amended. Every output sequence is sorted ascending by date, but
only weakly in general: the activity-feed branch is strictly ascending
whenever distinct bucket date keys have distinct date values (as valid
`YYYY-MM-DD` keys do), while the timeline branch — whose rows are not
deduplicated — is non-decreasing, with equal adjacent dates exactly when
the input timeline repeats a date. -/
theorem chartData_sorted_by_date (tz : Int) (feed : List ActivityFeedItem)
    (tl : List TimelineRow) (af : Option (List ActivityFeedItem))
    (td : Option (List TimelineRow)) (tp : Option Int)
    (hnd : ((dailyData feed).map (fun b => dateVal b.date)).Nodup) :
    List.Chain' (fun p q => dateVal p.rawDate < dateVal q.rawDate)
      (chartDataFromFeedPre tz feed) ∧
    List.Chain' (fun p q => dateVal p.rawDate ≤ dateVal q.rawDate)
      (timelinePointsPre tz tl) ∧
    List.Chain' (fun p q => dateVal p.rawDate ≤ dateVal q.rawDate)
      (chartData tz af td tp) := by
  refine ⟨(List.chain'_map _).mp (chain_lt_key_feed tz feed hnd),
    (List.chain'_map _).mp (chain_le_key_timeline tz tl), ?_⟩
  refine (List.chain'_map _).mp ?_
  rw [chartData_eq_adjust_pre, adjust_keys]
  unfold preChartData
  split_ifs
  · simp
  · exact chain_le_key_feed tz _
  · simp
  · exact chain_le_key_timeline tz _

/-- Witness for C6's amended claim on concrete inputs: the scenario-1
feed (two distinct dates) and a one-row timeline. -/
theorem chartData_sorted_by_date_witness :
    List.Chain' (fun p q => dateVal p.rawDate < dateVal q.rawDate)
      (chartDataFromFeedPre 0
        [⟨"2025-09-01T10:00:00Z", "activity", 10⟩,
         ⟨"2025-09-01T11:00:00Z", "activity", 5⟩,
         ⟨"2025-09-02T09:00:00Z", "redemption", -3⟩]) ∧
    List.Chain' (fun p q => dateVal p.rawDate ≤ dateVal q.rawDate)
      (timelinePointsPre 0 [⟨"2025-01-01", some 5, some 8, none⟩]) ∧
    List.Chain' (fun p q => dateVal p.rawDate ≤ dateVal q.rawDate)
      (chartData 0 (some
        [⟨"2025-09-01T10:00:00Z", "activity", 10⟩,
         ⟨"2025-09-01T11:00:00Z", "activity", 5⟩,
         ⟨"2025-09-02T09:00:00Z", "redemption", -3⟩]) none (some 12)) :=
  chartData_sorted_by_date 0
    [⟨"2025-09-01T10:00:00Z", "activity", 10⟩,
     ⟨"2025-09-01T11:00:00Z", "activity", 5⟩,
     ⟨"2025-09-02T09:00:00Z", "redemption", -3⟩]
    [⟨"2025-01-01", some 5, some 8, none⟩]
    (some
      [⟨"2025-09-01T10:00:00Z", "activity", 10⟩,
       ⟨"2025-09-01T11:00:00Z", "activity", 5⟩,
       ⟨"2025-09-02T09:00:00Z", "redemption", -3⟩]) none (some 12) (by decide)

end ActivityGraph
